import Mathlib

/-!
Verification development for the AI Axion command-interpretation and
risk-gated approval pipeline.

The repository ships the React client (src/frontend/src/App.js) and its
documentation (src/README.md).  The FastAPI backend (app/parser.py,
app/main.py, app/tools.py, app/storage.py) is referenced by the client and
the README but its sources are not in the repository, so the backend
operations are modelled from the specification and from the tables in
src/README.md; each such definition carries a doc comment starting
"Modelled from the spec:".  Client-side behavior is embedded directly from
App.js.

Confidence scores, written as rationals in [0,1] by the documentation
(CONFIDENCE_LOW = 0.55, CONFIDENCE_HIGH = 0.80), are represented here in
hundredths as naturals (55, 80); all documented scores are exact
multiples of 0.01, so the order structure is preserved exactly.
-/

namespace Axion

/-- Risk tier of an action: low, medium or high. -/
inductive RiskTier
  | low
  | medium
  | high
  deriving DecidableEq, Repr

/-- Session security mode. -/
inductive Mode
  | paranoid
  | normal
  | hands_free
  deriving DecidableEq, Repr

/-- Configured parser mode. -/
inductive ParserMode
  | rules
  | llm
  | hybrid
  deriving DecidableEq, Repr

/-- Interpretation source of a resolved intent. -/
inductive Source
  | rule
  | fallback
  deriving DecidableEq, Repr

/-- Action status: a one-way progression
`pending → (approved | denied) → (executed | failed)`, or
`auto → (executed | failed)` for actions not requiring approval. -/
inductive ActionStatus
  | pending
  | approved
  | denied
  | auto
  | executed
  | failed
  deriving DecidableEq, Repr

/-- An Action record with the fields of the data model: identifier, owning
session, tool name, argument mapping, risk tier, resolved confidence (in
hundredths), interpretation source, approval requirement flag, status and
creation time. -/
structure Action where
  id : Nat
  session_id : String
  tool : String
  args : List (String × String)
  risk : RiskTier
  confidence : Nat
  source : Source
  need_approval : Bool
  status : ActionStatus
  created : Nat
  deriving DecidableEq, Repr

/-- A LogEntry record: action identifier, tool, arguments, result payload or
error, success flag, timestamp. -/
structure LogEntry where
  action_id : Nat
  tool : String
  args : List (String × String)
  result : Option String
  error : Option String
  success : Bool
  timestamp : Nat
  deriving DecidableEq, Repr

/-- Modelled from the spec: the Approval Gate's decision table (spec section
4.6 and the Security Modes table of src/README.md; the backend gate module is
not in the repository).  Pure function of (risk tier, session mode):
paranoid approves everything, normal auto-executes low risk only,
hands_free auto-executes low and medium risk. -/
def needApproval (risk : RiskTier) (mode : Mode) : Bool :=
  match mode, risk with
  | .paranoid, _ => true
  | .normal, .low => false
  | .normal, _ => true
  | .hands_free, .high => true
  | .hands_free, _ => false

/-- Modelled from the spec: the base risk registry keyed by intent name
(Tool/Intent Registry table of src/README.md; the backend registry module is
not in the repository).  Unknown intents classify as high (fail safe). -/
def baseRisk (tool : String) : RiskTier :=
  if tool = "system.time" then .low
  else if tool = "files.write" then .medium
  else if tool = "files.read" then .medium
  else if tool = "files.delete" then .high
  else if tool = "files.copy" then .medium
  else if tool = "files.move" then .medium
  else if tool = "files.list" then .low
  else if tool = "apps.open" then .low
  else .high

/-- File-class tools of the registry: the tools subject to the sandbox
override rule. -/
def isFileClass (tool : String) : Bool :=
  tool = "files.write" || tool = "files.read" || tool = "files.delete" ||
  tool = "files.copy" || tool = "files.move" || tool = "files.list"

/-- Modelled from the spec: the Risk Classifier (spec section 4.4; the
backend classifier module is not in the repository).  Deterministic mapping
from (tool, arguments, whether the target lies outside the current sandbox
root) to a risk tier; a file-class action whose target resolves outside the
sandbox root is forced to high regardless of its base tier. -/
def classify (tool : String) (args : List (String × String))
    (outsideSandbox : Bool) : RiskTier :=
  if isFileClass tool && outsideSandbox then .high else baseRisk tool

/-- A resolved intent as it reaches the classifier, together with the two
inputs the classifier must NOT depend on: the resolved confidence and the
configured parser mode. -/
structure ResolvedIntent where
  tool : String
  args : List (String × String)
  outsideSandbox : Bool
  confidence : Nat
  source : Source
  parserMode : ParserMode
  deriving DecidableEq, Repr

/-- Risk classification of a resolved intent: the classifier reads only the
tool, the arguments and the sandbox-membership flag. -/
def classifyIntent (i : ResolvedIntent) : RiskTier :=
  classify i.tool i.args i.outsideSandbox

/-- Parse errors of the Interpretation Resolver. -/
inductive ParseErrKind
  | no_match
  | fallback_unavailable
  | fallback_timeout
  deriving DecidableEq, Repr

/-- A candidate produced by the Rule Engine or the Fallback Invoker:
intent name, arguments, confidence in hundredths. -/
structure Candidate where
  intent : String
  args : List (String × String)
  confidence : Nat
  deriving DecidableEq, Repr

/-- Confidence of a Rule Engine result: no match yields an empty result with
confidence 0 (spec section 4.1). -/
def ruleConfidence : Option Candidate → Nat
  | none => 0
  | some c => c.confidence

/-- Modelled from the spec: whether the hybrid resolver escalates to the
Fallback Invoker — exactly when the rule confidence is strictly below
CONFIDENCE_LOW (spec section 4.3; the backend resolver module is not in the
repository). -/
def hybridNeedsFallback (cLow : Nat) (ruleRes : Option Candidate) : Bool :=
  ruleConfidence ruleRes < cLow

/-- Modelled from the spec: the hybrid Interpretation Resolver (spec section
4.3; the backend resolver module is not in the repository).  The Rule Engine
runs first; confidence at least CONFIDENCE_HIGH accepts the rule result
as-is; confidence strictly below CONFIDENCE_LOW invokes the Fallback Invoker,
whose result (if any) replaces the candidate, and a fallback failure
surfaces ParseError(no_match); in between, the rule result is accepted and
marked low-confidence.  The fallback outcome is passed as an Option: none
models any fallback failure, degraded to no candidate. -/
def resolveHybrid (cLow cHigh : Nat) (ruleRes : Option Candidate)
    (fb : Option Candidate) : Except ParseErrKind (Candidate × Source) :=
  if cHigh ≤ ruleConfidence ruleRes then
    match ruleRes with
    | some c => .ok (c, .rule)
    | none => .error .no_match
  else if ruleConfidence ruleRes < cLow then
    match fb with
    | some c => .ok (c, .fallback)
    | none => .error .no_match
  else
    match ruleRes with
    | some c => .ok (c, .rule)
    | none => .error .no_match

/-- Terminal decisions available to the Approval Gate. -/
inductive Decision
  | allow
  | deny
  deriving DecidableEq, Repr

/-- Errors raised by the gate and the executor on duplicate attempts. -/
inductive OpError
  | ApprovalConflict
  | NotFound
  | DispatchRejected
  deriving DecidableEq, Repr

/-- Modelled from the spec: the Approval Gate's decision transition on a
single Action identifier (spec sections 4.6 and 5; the backend gate module is
not in the repository).  The per-identifier check-then-set is atomic, so the
linearized history of decisions on one identifier is a sequence of these
steps.  Only a pending Action can be decided; any other status fails with
ApprovalConflict and the state is returned unchanged. -/
def decideStep (st : ActionStatus) (d : Decision) :
    ActionStatus × Except OpError ActionStatus :=
  match st with
  | .pending =>
    let st' := match d with
      | .allow => ActionStatus.approved
      | .deny => ActionStatus.denied
    (st', .ok st')
  | s => (s, .error .ApprovalConflict)

/-- Modelled from the spec: the Action Executor's dispatch on a single Action
identifier (spec sections 4.7 and 5; the backend executor module is not in
the repository).  The status is checked before dispatch: only an auto or
approved Action may be dispatched; the tool outcome moves the status to
executed or failed; any other status rejects the dispatch attempt and the
state is returned unchanged. -/
def dispatchStep (st : ActionStatus) (success : Bool) :
    ActionStatus × Except OpError ActionStatus :=
  match st with
  | .auto | .approved =>
    let st' := if success then ActionStatus.executed else ActionStatus.failed
    (st', .ok st')
  | s => (s, .error .DispatchRejected)

/-- A Session record: identifier, security mode, sandbox root, creation and
expiry times, and privilege-elevation state (none, or an elevated root with
its own expiry time). -/
structure Session where
  id : String
  mode : Mode
  root : String
  created : Nat
  expiry : Nat
  elevation : Option (String × Nat)
  deriving DecidableEq, Repr

/-- Modelled from the spec: request_privilege (spec sections 4.5 and 6; the
backend session-manager module is not in the repository; its client caller is
requestPrivilege in src/frontend/src/App.js).  A privilege request names a
target path, a reason and an elevation duration; it is itself an Action with
risk forced to high and need_approval true regardless of the session's mode,
persisted pending and returned to the caller. -/
def request_privilege (sess : Session) (target : String) (duration : Nat)
    (reason : String) (now freshId : Nat) : Action :=
  { id := freshId
    session_id := sess.id
    tool := "privilege.request"
    args := [("target_path", target), ("reason_brief", reason)]
    risk := .high
    confidence := 100
    source := .rule
    need_approval := true
    status := .pending
    created := now }

/-- Modelled from the spec: the Session Manager consuming an approved
privilege.request (spec section 4.5; the backend session-manager module is
not in the repository; its client caller is approve in
src/frontend/src/App.js).  On approval the session's elevated root is set to
the requested target path with expiry = approval time + requested
duration. -/
def applyPrivilegeApproval (sess : Session) (target : String) (duration : Nat)
    (now : Nat) : Session :=
  { sess with elevation := some (target, now + duration) }

/-- Whether an elevation names exactly this target and has not yet expired
at time `now` (spec section 3: the sandbox root is authoritative unless an
active, non-expired elevation names that exact target). -/
def elevationActive (elev : Option (String × Nat)) (target : String)
    (now : Nat) : Bool :=
  match elev with
  | some (p, e) => p = target && now < e
  | none => false

/-- Modelled from the spec: classification of a file action against a
session's sandbox state at time `now`.  `outsideDefault` says whether the
target path resolves outside the default sandbox root; the target counts as
outside the current root unless an active elevation names it. -/
def classifySession (sess : Session) (tool target : String)
    (args : List (String × String)) (outsideDefault : Bool) (now : Nat) :
    RiskTier :=
  classify tool args
    (outsideDefault && !(elevationActive sess.elevation target now))

/-- Errors surfaced synchronously by plan, with no Action created. -/
inductive PlanError
  | parse : ParseErrKind → PlanError
  | validation : PlanError
  deriving DecidableEq, Repr

/-- Modelled from the spec: the plan pipeline from a resolved interpretation
to persisted Actions (spec sections 6 and 7; the backend pipeline module is
not in the repository).  A ParseError is surfaced to the caller as-is and a
failed argument validation surfaces ValidationError — in both cases no
Action is created.  Otherwise one Action is created; a sandbox violation
(`outsideNoElev`: the target escapes the root with no active elevation) is
still created for audit but classified by the override that forces file-class
actions outside the sandbox to high. -/
def planPipeline (resolved : Except ParseErrKind (Candidate × Source))
    (validOk : Bool) (outsideNoElev : Bool) (mode : Mode) (sid : String)
    (freshId now : Nat) : Except PlanError (List Action) :=
  match resolved with
  | .error e => .error (.parse e)
  | .ok (c, src) =>
    if validOk = false then .error .validation
    else
      let risk := classify c.intent c.args outsideNoElev
      let na := needApproval risk mode
      .ok [{ id := freshId
             session_id := sid
             tool := c.intent
             args := c.args
             risk := risk
             confidence := c.confidence
             source := src
             need_approval := na
             status := if na then .pending else .auto
             created := now }]

/-- A tool_result event as pushed on the Notification Channel: action id,
tool, success. -/
structure ToolResultEvent where
  action_id : Nat
  tool : String
  success : Bool
  deriving DecidableEq, Repr

/-- Server-side audit state: the append-only log store queried by
get_logs. -/
structure ServerState where
  logs : List LogEntry
  deriving DecidableEq, Repr

/-- Modelled from the spec: get_logs returns the session's audit log from
the store (spec section 6; the backend audit module is not in the
repository). -/
def get_logs (s : ServerState) : List LogEntry := s.logs

/-- Modelled from the spec: a best-effort publish of one tool_result event
(spec sections 4.8 and 5; the backend notification module is not in the
repository).  Delivery is not guaranteed: `delivered` records whether the
subscriber received the push.  The publish never writes to the audit
store. -/
def publishEvent (s : ServerState) (e : ToolResultEvent) (delivered : Bool) :
    ServerState × Option ToolResultEvent :=
  (s, if delivered then some e else none)

/-- Publishing a whole history of events, each with its own delivery
outcome. -/
def publishAll (s : ServerState) (evs : List (ToolResultEvent × Bool)) :
    ServerState :=
  evs.foldl (fun st eb => (publishEvent st eb.1 eb.2).1) s

/-- Embedded from src/frontend/src/App.js (fetchLogs, line 83, and the
tool_result event effect, line 87): both client paths set the client's log
list to exactly the `logs` field of a fresh GET /logs response, so after any
fetch the client view equals the server's audit log. -/
def clientLogsAfterFetch (s : ServerState) : List LogEntry := get_logs s

/-- An HTTP request the client issues, reduced to method, path and the
key-value pairs it carries (query parameters or JSON body fields). -/
structure ApiRequest where
  method : String
  path : String
  params : List (String × String)
  deriving DecidableEq, Repr

/-- Embedded from src/frontend/src/App.js, loadRoot (line 65): the client
fetches the root settings with a plain GET and no parameters at all. -/
def loadRootRequest : ApiRequest :=
  { method := "GET", path := "/settings/root", params := [] }

/-- Embedded from src/frontend/src/App.js, setRootOnServer (line 68): the
client sets the root with a body carrying only the path. -/
def setRootRequest (p : String) : ApiRequest :=
  { method := "POST", path := "/settings/root", params := [("path", p)] }

/-- Embedded from src/frontend/src/App.js, fetchLogs (line 83): the logs
query carries the session identifier. -/
def logsRequest (sid : String) : ApiRequest :=
  { method := "GET", path := "/logs", params := [("session_id", sid)] }

/-- Whether a request names a session via a session_id key. -/
def hasSessionParam (r : ApiRequest) : Bool :=
  r.params.any (fun p => p.1 = "session_id")

/-- The client events that can reach the root-settings endpoint: an
Approve/Deny click on a listed action, the Use-default button of the root
dialog, the Request-and-Create button, and submitting a plan. -/
inductive UiEvent
  | approveClick (a : Action) (decision : String)
  | useDefaultClick
  | requestPrivilegeClick (path : String)
  | planSubmit (utterance : String)
  deriving DecidableEq, Repr

/-- Embedded from src/frontend/src/App.js: which events issue a POST
/settings/root.  approve (line 91) calls setRootOnServer only when the
decision is allow and the action's tool is privilege.request; the
Use-default button (line 146) calls setRootOnServer with the empty string to
reset to the default root; no other handler calls it (requestPrivilege,
line 70, only posts a privilege request; proposePlan, line 89, only posts a
plan). -/
def issuesSetRoot : UiEvent → Bool
  | .approveClick a d => d = "allow" && a.tool = "privilege.request"
  | .useDefaultClick => true
  | .requestPrivilegeClick _ => false
  | .planSubmit _ => false

/-- Root settings held by the server: the current root and a first-run
flag. -/
structure RootSettings where
  root : String
  first_run : Bool
  deriving DecidableEq, Repr

/-- Modelled from the spec: get_root returns the current root together with
the first_run flag (spec section 6; the backend settings module is not in
the repository; its client caller loadRoot in src/frontend/src/App.js reads
exactly data.root and data.first_run from the response). -/
def get_root (s : RootSettings) : String × Bool := (s.root, s.first_run)

/-- Client-side state relevant to the approval list: the pending-approval
list rendered by App.js (`plans`) and the fetched log list (`logs`). -/
structure ClientState where
  plans : List Action
  logs : List LogEntry
  deriving DecidableEq, Repr

/-- Embedded from src/frontend/src/App.js, proposePlan (line 89): on a
successful plan response the client runs setPlans(data.actions), replacing
the displayed pending-approval list wholesale with the actions of that
response. -/
def proposePlanSuccess (st : ClientState) (respActions : List Action) :
    ClientState :=
  { st with plans := respActions }

/-- Embedded from src/frontend/src/App.js, requestPrivilege (line 74): the
returned privilege action is appended to the displayed list. -/
def requestPrivilegeSuccess (st : ClientState) (a : Action) : ClientState :=
  { st with plans := st.plans ++ [a] }

/-- Embedded from src/frontend/src/App.js, approve (line 91): after a
decision the action is filtered out of the displayed list by id. -/
def approveSuccess (st : ClientState) (a : Action) : ClientState :=
  { st with plans := st.plans.filter (fun x => x.id ≠ a.id) }

/-- Embedded from src/frontend/src/App.js (plan list rendering, lines
183-197): Approve and Deny buttons exist only for entries of `plans` whose
need_approval flag is set, so only those actions can be decided from the
UI. -/
def decidableFromUi (st : ClientState) : List Action :=
  st.plans.filter (fun a => a.need_approval)

/-- A per-identifier status store of persisted Actions. -/
abbrev ActionStore := List (Nat × ActionStatus)

/-- Status lookup by Action identifier. -/
def lookupStatus (s : ActionStore) (id : Nat) : Option ActionStatus :=
  (s.find? (fun p => p.1 = id)).map (fun p => p.2)

/-- Modelled from the spec: plan persists only the Actions it just created;
it never touches the status of an existing Action (spec sections 3 and 6;
the backend storage module is not in the repository). -/
def planPersist (s : ActionStore) (newOnes : ActionStore) : ActionStore :=
  s ++ newOnes

/-- C2: for every pair of risk tier in (low, medium, high) and session mode
in (paranoid, normal, hands_free), need_approval is exactly the value of the
table of spec section 4.6: paranoid requires approval for all three tiers,
normal for medium and high only, hands_free for high only. -/
theorem C2_need_approval_table :
    needApproval .low .paranoid = true ∧
    needApproval .medium .paranoid = true ∧
    needApproval .high .paranoid = true ∧
    needApproval .low .normal = false ∧
    needApproval .medium .normal = true ∧
    needApproval .high .normal = true ∧
    needApproval .low .hands_free = false ∧
    needApproval .medium .hands_free = false ∧
    needApproval .high .hands_free = true := by
  decide

/-- C3: the risk tier of a resolved intent is a pure function of the tool
name, the arguments and whether the target lies outside the sandbox root:
two classifications agreeing on those three inputs agree on the tier, so the
tier never depends on the resolved confidence, the interpretation source or
the configured parser mode, and reclassifying the same input is stable. -/
theorem C3_classifier_pure (i j : ResolvedIntent) (htool : i.tool = j.tool)
    (hargs : i.args = j.args)
    (hout : i.outsideSandbox = j.outsideSandbox) :
    classifyIntent i = classifyIntent j := by
  simp [classifyIntent, htool, hargs, hout]

/-- Witness for C3 at a concrete input: the same tool, arguments and
sandbox flag classify identically across different confidence, source and
parser-mode values. -/
theorem C3_classifier_pure_witness :
    classifyIntent
      { tool := "files.write", args := [("path", "notes.txt")],
        outsideSandbox := false, confidence := 95, source := .rule,
        parserMode := .rules } =
    classifyIntent
      { tool := "files.write", args := [("path", "notes.txt")],
        outsideSandbox := false, confidence := 30, source := .fallback,
        parserMode := .hybrid } :=
  C3_classifier_pure _ _ rfl rfl rfl

/-- C4: under hybrid parser mode, a rule match with confidence at least
CONFIDENCE_HIGH is accepted as-is and the resolution is independent of the
fallback (the fallback is never consulted); a rule confidence strictly below
CONFIDENCE_LOW always escalates to the fallback, whose result, if any,
replaces the rule candidate, and a fallback failure surfaces
ParseError(no_match). -/
theorem C4_hybrid_resolution (cLow cHigh : Nat) (r fb fb' : Option Candidate)
    (hlh : cLow ≤ cHigh) :
    (∀ c, r = some c → cHigh ≤ c.confidence →
      hybridNeedsFallback cLow r = false ∧
      resolveHybrid cLow cHigh r fb = .ok (c, .rule) ∧
      resolveHybrid cLow cHigh r fb = resolveHybrid cLow cHigh r fb') ∧
    (ruleConfidence r < cLow →
      hybridNeedsFallback cLow r = true ∧
      (∀ d, fb = some d →
        resolveHybrid cLow cHigh r fb = .ok (d, .fallback)) ∧
      (fb = none →
        resolveHybrid cLow cHigh r fb = .error .no_match)) := by
  constructor
  · intro c hr hc
    subst hr
    refine ⟨?_, ?_, ?_⟩
    · simp [hybridNeedsFallback, ruleConfidence]
      omega
    · simp [resolveHybrid, ruleConfidence, hc]
    · simp [resolveHybrid, ruleConfidence, hc]
  · intro hlow
    have hnh : ¬ (cHigh ≤ ruleConfidence r) := by omega
    refine ⟨?_, ?_, ?_⟩
    · simp [hybridNeedsFallback, hlow]
    · intro d hd
      subst hd
      simp [resolveHybrid, hnh, hlow]
    · intro hfb
      subst hfb
      simp [resolveHybrid, hnh, hlow]

/-- Witness for C4 with the documented thresholds (0.55 and 0.80, in
hundredths): a rule match at confidence 0.95 resolves to the rule result; a
rule match at confidence 0.30 resolves to the fallback result when the
fallback produces one and to ParseError(no_match) when it fails. -/
theorem C4_hybrid_resolution_witness :
    resolveHybrid 55 80 (some { intent := "files.write", args := [], confidence := 95 }) none =
      .ok ({ intent := "files.write", args := [], confidence := 95 }, .rule) ∧
    resolveHybrid 55 80 (some { intent := "files.write", args := [], confidence := 30 })
      (some { intent := "files.list", args := [], confidence := 70 }) =
      .ok ({ intent := "files.list", args := [], confidence := 70 }, .fallback) ∧
    resolveHybrid 55 80 (some { intent := "files.write", args := [], confidence := 30 }) none =
      .error .no_match := by
  refine ⟨?_, ?_, ?_⟩
  · exact ((C4_hybrid_resolution 55 80 _ none none (by decide)).1 _ rfl
      (by decide)).2.1
  · exact ((C4_hybrid_resolution 55 80
      (some { intent := "files.write", args := [], confidence := 30 })
      (some { intent := "files.list", args := [], confidence := 70 }) none
      (by decide)).2 (by decide)).2.1 _ rfl
  · exact ((C4_hybrid_resolution 55 80
      (some { intent := "files.write", args := [], confidence := 30 })
      none none (by decide)).2 (by decide)).2.2 rfl

/-- C1: per Action identifier, at most one terminal decision and at most one
terminal outcome are ever recorded: a decide on an Action that is not
pending fails with ApprovalConflict and leaves the state unchanged, a second
decide after a first one conflicts, and after a dispatch has produced its
terminal outcome every further dispatch attempt is rejected with the state
unchanged, so no Action is executed twice. -/
theorem C1_once_only (st : ActionStatus) (d d' : Decision) (b b' : Bool) :
    (st ≠ .pending → decideStep st d = (st, .error .ApprovalConflict)) ∧
    (st = .pending →
      decideStep (decideStep st d).1 d' =
        ((decideStep st d).1, .error .ApprovalConflict)) ∧
    ((st = .auto ∨ st = .approved) →
      dispatchStep (dispatchStep st b).1 b' =
        ((dispatchStep st b).1, .error .DispatchRejected)) := by
  cases st <;> cases d <;> cases d' <;> cases b <;> cases b' <;>
    simp [decideStep, dispatchStep]

/-- Witness for C1 at concrete statuses: deciding an already-approved Action
conflicts, a second decision after one on a pending Action conflicts, and a
second dispatch after an execution is rejected. -/
theorem C1_once_only_witness :
    decideStep .approved .allow = (.approved, .error .ApprovalConflict) ∧
    decideStep (decideStep .pending .allow).1 .deny =
      ((decideStep .pending .allow).1, .error .ApprovalConflict) ∧
    dispatchStep (dispatchStep .approved true).1 true =
      ((dispatchStep .approved true).1, .error .DispatchRejected) :=
  ⟨(C1_once_only .approved .allow .allow true true).1 (by decide),
   (C1_once_only .pending .allow .deny true true).2.1 rfl,
   (C1_once_only .approved .allow .deny true true).2.2 (Or.inr rfl)⟩

/-- C5: every privilege-elevation request produces an Action with risk tier
high, need_approval true and status pending (never auto-executed), and the
produced Action is the same whatever the session's security mode is. -/
theorem C5_privilege_request (sess : Session) (target reason : String)
    (duration now freshId : Nat) :
    (request_privilege sess target duration reason now freshId).risk = .high ∧
    (request_privilege sess target duration reason now freshId).need_approval
      = true ∧
    (request_privilege sess target duration reason now freshId).status
      = .pending ∧
    (∀ m : Mode,
      request_privilege { sess with mode := m } target duration reason now
        freshId =
      request_privilege sess target duration reason now freshId) :=
  ⟨rfl, rfl, rfl, fun _ => rfl⟩

/-- C6: approving a privilege.request sets the session's elevated root to
the requested target with expiry = approval time + requested duration; once
that expiry has elapsed, a file-class action targeting that same path
outside the default sandbox is again classified high as a sandbox
violation. -/
theorem C6_privilege_approval_and_expiry (sess : Session)
    (target tool : String) (args : List (String × String))
    (duration t0 t : Nat) (hfile : isFileClass tool = true)
    (ht : t0 + duration ≤ t) :
    (applyPrivilegeApproval sess target duration t0).elevation =
      some (target, t0 + duration) ∧
    classifySession (applyPrivilegeApproval sess target duration t0) tool
      target args true t = .high := by
  refine ⟨rfl, ?_⟩
  have hlt : ¬ (t < t0 + duration) := by omega
  simp [classifySession, applyPrivilegeApproval, elevationActive, classify,
    hfile, hlt]

/-- Witness for C6 at a concrete session: a 15-minute elevation granted at
time 10 covers expiry 25, and at time 30 a files.write to the same target
outside the default sandbox is classified high again. -/
theorem C6_privilege_approval_and_expiry_witness :
    (applyPrivilegeApproval
      { id := "s1", mode := .normal, root := "~/Desktop/Axion", created := 0,
        expiry := 3600, elevation := none } "/data/out" 15 10).elevation =
      some ("/data/out", 25) ∧
    classifySession
      (applyPrivilegeApproval
        { id := "s1", mode := .normal, root := "~/Desktop/Axion",
          created := 0, expiry := 3600, elevation := none } "/data/out" 15 10)
      "files.write" "/data/out" [("path", "/data/out/a.txt")] true 30 =
      .high :=
  C6_privilege_approval_and_expiry
    { id := "s1", mode := .normal, root := "~/Desktop/Axion", created := 0,
      expiry := 3600, elevation := none }
    "/data/out" "files.write" [("path", "/data/out/a.txt")] 15 10 30
    (by decide) (by decide)

/-- C7: a ParseError or a ValidationError is surfaced synchronously by the
plan pipeline and creates no Action, while a sandbox violation (target
escaping the root with no active elevation) still creates the Action for
audit with its risk tier forced to high — never downgraded, whatever the
tool's base tier. -/
theorem C7_plan_errors (resolved : Except ParseErrKind (Candidate × Source))
    (validOk outsideNoElev : Bool) (mode : Mode) (sid : String)
    (freshId now : Nat) :
    (∀ e, resolved = .error e →
      planPipeline resolved validOk outsideNoElev mode sid freshId now =
        .error (.parse e)) ∧
    (∀ c src, resolved = .ok (c, src) → validOk = false →
      planPipeline resolved validOk outsideNoElev mode sid freshId now =
        .error .validation) ∧
    (∀ c src, resolved = .ok (c, src) → validOk = true →
      outsideNoElev = true → isFileClass c.intent = true →
      ∃ a, planPipeline resolved validOk outsideNoElev mode sid freshId now =
        .ok [a] ∧ a.risk = .high) := by
  refine ⟨?_, ?_, ?_⟩
  · intro e he
    subst he
    rfl
  · intro c src hr hv
    subst hr
    subst hv
    rfl
  · intro c src hr hv ho hfile
    subst hr
    subst hv
    subst ho
    exact ⟨_, rfl, by simp [classify, hfile]⟩

/-- Witness for C7 at concrete inputs: a no_match parse error is surfaced
with no action created; a failed validation is surfaced with no action
created; and a files.read (base tier medium) targeting a path outside the
sandbox with no elevation yields exactly one created action whose risk is
high. -/
theorem C7_plan_errors_witness :
    planPipeline (.error .no_match) true false .normal "s1" 1 0 =
      .error (.parse .no_match) ∧
    planPipeline
      (.ok ({ intent := "files.read", args := [("path", "x")],
              confidence := 90 }, .rule)) false false .normal "s1" 1 0 =
      .error .validation ∧
    (∃ a, planPipeline
      (.ok ({ intent := "files.read", args := [("path", "/etc/passwd")],
              confidence := 90 }, .rule)) true true .normal "s1" 1 0 =
      .ok [a] ∧ a.risk = .high) :=
  ⟨(C7_plan_errors (.error .no_match) true false .normal "s1" 1 0).1 _ rfl,
   (C7_plan_errors
      (.ok ({ intent := "files.read", args := [("path", "x")],
              confidence := 90 }, .rule)) false false .normal "s1" 1 0).2.1
      _ _ rfl rfl,
   (C7_plan_errors
      (.ok ({ intent := "files.read", args := [("path", "/etc/passwd")],
              confidence := 90 }, .rule)) true true .normal "s1" 1 0).2.2
      _ _ rfl rfl rfl (by decide)⟩

/-- Publishing events never changes the server's audit state: the publish
only selects what the subscriber receives. -/
theorem publishAll_id (t : ServerState)
    (l : List (ToolResultEvent × Bool)) : publishAll t l = t := by
  induction l generalizing t with
  | nil => rfl
  | cons x xs ih => exact ih t

/-- C9: the Notification Channel is best-effort only and not a source of
truth: whatever subset of tool_result events is delivered, and in whatever
order they were pushed, the audit log returned by get_logs — and hence the
client view recovered by a log fetch — is exactly the same. -/
theorem C9_push_delivery_immaterial (s : ServerState)
    (evs evs' : List (ToolResultEvent × Bool)) :
    clientLogsAfterFetch (publishAll s evs) =
      clientLogsAfterFetch (publishAll s evs') ∧
    get_logs (publishAll s evs) = get_logs s := by
  rw [publishAll_id, publishAll_id]
  exact ⟨rfl, rfl⟩

/-- An element found in the first part of an appended list is still the one
found in the whole list. -/
theorem find_append_of_found (p : Nat × ActionStatus → Bool)
    (s t : ActionStore) (x : Nat × ActionStatus) (h : s.find? p = some x) :
    (s ++ t).find? p = some x := by
  induction s with
  | nil => simp [List.find?] at h
  | cons a as ih =>
    by_cases hp : p a
    · rw [List.find?_cons_of_pos _ hp] at h
      rw [List.cons_append, List.find?_cons_of_pos _ hp]
      exact h
    · rw [List.find?_cons_of_neg _ hp] at h
      rw [List.cons_append, List.find?_cons_of_neg _ hp]
      exact ih h

/-- C10: a successful plan call replaces the client's pending-approval list
wholesale with exactly the actions of that response; an Action from an
earlier plan whose identifier is not among the returned ones disappears from
the displayed list and from the set of actions the UI can still approve or
deny, even though its server-side status stays pending (plan only appends
the newly created Actions to the store). -/
theorem C10_plan_replaces_pending_list (st : ClientState)
    (respActions : List Action) (a : Action) (server newOnes : ActionStore) :
    (proposePlanSuccess st respActions).plans = respActions ∧
    (a.id ∉ respActions.map (fun x => x.id) →
      a ∉ (proposePlanSuccess st respActions).plans ∧
      a ∉ decidableFromUi (proposePlanSuccess st respActions)) ∧
    (lookupStatus server a.id = some .pending →
      lookupStatus (planPersist server newOnes) a.id = some .pending) := by
  refine ⟨rfl, ?_, ?_⟩
  · intro hid
    have hmem : a ∉ respActions := fun h => hid (List.mem_map_of_mem _ h)
    constructor
    · exact hmem
    · intro hdec
      exact hmem (List.mem_of_mem_filter hdec)
  · intro hp
    unfold lookupStatus at hp ⊢
    cases hfind : server.find? (fun p => p.1 = a.id) with
    | none => rw [hfind] at hp; simp at hp
    | some x =>
      rw [hfind] at hp
      rw [planPersist, find_append_of_found _ _ _ _ hfind]
      exact hp

/-- Witness for C10 at a concrete client state: after a plan returning a
single fresh action, the earlier pending action (id 1) is gone from the
displayed list and from the UI-decidable set, while its status in the server
store is still pending. -/
theorem C10_plan_replaces_pending_list_witness :
    (proposePlanSuccess
      { plans := [{ id := 1, session_id := "s1", tool := "files.delete",
                    args := [("path", "notes.txt")], risk := .high,
                    confidence := 95, source := .rule, need_approval := true,
                    status := .pending, created := 0 }], logs := [] }
      [{ id := 2, session_id := "s1", tool := "files.read",
         args := [("path", "a.txt")], risk := .medium, confidence := 95,
         source := .rule, need_approval := true, status := .pending,
         created := 5 }]).plans =
      [{ id := 2, session_id := "s1", tool := "files.read",
         args := [("path", "a.txt")], risk := .medium, confidence := 95,
         source := .rule, need_approval := true, status := .pending,
         created := 5 }] ∧
    ({ id := 1, session_id := "s1", tool := "files.delete",
       args := [("path", "notes.txt")], risk := .high, confidence := 95,
       source := .rule, need_approval := true, status := .pending,
       created := 0 } : Action) ∉
      (proposePlanSuccess
        { plans := [{ id := 1, session_id := "s1", tool := "files.delete",
                      args := [("path", "notes.txt")], risk := .high,
                      confidence := 95, source := .rule,
                      need_approval := true, status := .pending,
                      created := 0 }], logs := [] }
        [{ id := 2, session_id := "s1", tool := "files.read",
           args := [("path", "a.txt")], risk := .medium, confidence := 95,
           source := .rule, need_approval := true, status := .pending,
           created := 5 }]).plans ∧
    lookupStatus (planPersist [(1, .pending)] [(2, .pending)]) 1 =
      some .pending := by
  have h := C10_plan_replaces_pending_list
    { plans := [{ id := 1, session_id := "s1", tool := "files.delete",
                  args := [("path", "notes.txt")], risk := .high,
                  confidence := 95, source := .rule, need_approval := true,
                  status := .pending, created := 0 }], logs := [] }
    [{ id := 2, session_id := "s1", tool := "files.read",
       args := [("path", "a.txt")], risk := .medium, confidence := 95,
       source := .rule, need_approval := true, status := .pending,
       created := 5 }]
    { id := 1, session_id := "s1", tool := "files.delete",
      args := [("path", "notes.txt")], risk := .high, confidence := 95,
      source := .rule, need_approval := true, status := .pending,
      created := 0 }
    [(1, .pending)] [(2, .pending)]
  exact ⟨h.1, (h.2.1 (by decide)).1, h.2.2 (by decide)⟩

/-- C8 counterexample: the client's root-settings requests are not scoped to
a session — loadRoot issues GET /settings/root with no session_id
parameter and setRootOnServer posts only the path, while the logs query
does carry session_id (src/frontend/src/App.js lines 65, 68 and 83). -/
theorem C8_root_not_session_scoped :
    hasSessionParam loadRootRequest = false ∧
    hasSessionParam (setRootRequest "/data/x") = false ∧
    hasSessionParam (logsRequest "s1") = true := by
  decide

/-- C8 (amended): get_root returns the current root together with the
first_run flag, and the client issues set_root only as the effect of an
approved privilege.request Action or as a reset to the default root; the
root-settings operations are global rather than session-scoped. -/
theorem C8_root_operations (s : RootSettings) (e : UiEvent)
    (h : issuesSetRoot e = true) :
    get_root s = (s.root, s.first_run) ∧
    ((∃ a, e = .approveClick a "allow" ∧ a.tool = "privilege.request") ∨
      e = .useDefaultClick) := by
  refine ⟨rfl, ?_⟩
  cases e with
  | approveClick a d =>
    left
    simp [issuesSetRoot] at h
    refine ⟨a, ?_, h.2⟩
    rw [h.1]
  | useDefaultClick => right; rfl
  | requestPrivilegeClick p => simp [issuesSetRoot] at h
  | planSubmit u => simp [issuesSetRoot] at h

/-- Witness for C8 (amended) at a concrete event: the Use-default button is
one of the two legitimate origins of a set_root call, and get_root exposes
root and first_run. -/
theorem C8_root_operations_witness :
    get_root { root := "~/Desktop/Axion", first_run := true } =
      ("~/Desktop/Axion", true) ∧
    ((∃ a, UiEvent.useDefaultClick = UiEvent.approveClick a "allow" ∧
        a.tool = "privilege.request") ∨
      UiEvent.useDefaultClick = UiEvent.useDefaultClick) :=
  C8_root_operations { root := "~/Desktop/Axion", first_run := true }
    .useDefaultClick rfl

end Axion
